import Mathlib

/-!
Shallow embedding of src/main.go (dynamodb-backups): regex table matching
over the paginated ListTables API (getTablesRegex), the per-table
createBackup and expireBackups tasks, the per-backup deleteBackup task,
and the fan-out / drain loops of main. External collaborators (the Go
regexp package and the DynamoDB client) are modelled from their
documented semantics, as noted on each definition. Concurrency is
embedded by making each task a function from its API outcomes to the
list of messages it sends on its channel; channel contents are the
concatenation of the per-task sends, and a drain loop of n iterations is
a take of n messages.
-/

/-- Go error value, identified by the text its Error() method returns. -/
structure GoError where
  msg : String
  deriving DecidableEq, Repr

/-- ExpireMessage (main.go 25-29): messages sent over the expire channel.
The Go int Count is a length here, hence Nat. -/
structure ExpireMessage where
  tableName : String
  count : Nat
  error : Option GoError
  deriving DecidableEq, Repr

/-- CreateMessage (main.go 32-36): messages sent over the create channel. -/
structure CreateMessage where
  tableName : String
  backupName : String
  error : Option GoError
  deriving DecidableEq, Repr

/-- Components of a Go time.Time value, as consumed by createBackup. -/
structure GoTime where
  year : Nat
  month : Nat
  day : Nat
  hour : Nat
  minute : Nat
  second : Nat
  deriving DecidableEq, Repr

/-- The fields of a dynamodb.BackupSummary that main.go reads. The
creation timestamp is modelled as seconds on an integer timeline. -/
structure BackupSummary where
  tableName : String
  backupName : String
  backupArn : String
  creationDateTime : Int
  deriving DecidableEq, Repr

/-- Outcome of running a piece of Go code that can panic: a nil-pointer
dereference is modelled as the panicked outcome. -/
inductive RunOutcome (α : Type) where
  | panicked : RunOutcome α
  | ok : α → RunOutcome α
  deriving DecidableEq, Repr

/-- MatchString semantics of the Go regex compiled from the pattern
caret-orders-underscore: it reports whether the string contains a match,
which for this start-anchored pattern means the string starts with the
seven characters of orders-underscore. Evaluated on the character list
so that concrete instances reduce. -/
def matchCaretOrders (s : String) : Bool :=
  decide (s.toList.take 7 = "orders_".toList)

/-- Model of the Go standard-library regexp.Compile restricted to the
concrete patterns this development exercises, with MatchString
semantics (does the string contain a match). The empty pattern compiles
and its regex matches every string (a match of the empty regex exists at
position 0 of any string); the start-anchored orders pattern is
matchCaretOrders; a lone opening parenthesis is malformed and fails to
compile, which the Go API reports as a nil regex plus an error.
Patterns outside this fragment are left unmodelled. -/
def regexpCompile (pattern : String) : Option (String → Bool) :=
  if pattern = "" then some (fun _ => true)
  else if pattern = "^orders_" then some matchCaretOrders
  else none

/-- The anonymous page callback inside getTablesRegex (main.go 145-153):
appends to matchedTables every name on the page that MatchString
accepts, and returns lastPage as the continue flag. When the compiled
regex is nil (discarded compile error, line 140), the first MatchString
call dereferences a nil pointer, so any nonempty page panics. -/
def listTablesCallback (patternRegex : Option (String → Bool))
    (matchedTables : List String) (page : List String) (lastPage : Bool) :
    RunOutcome (List String × Bool) :=
  match patternRegex with
  | none => if page.isEmpty then RunOutcome.ok (matchedTables, lastPage) else RunOutcome.panicked
  | some f => RunOutcome.ok (matchedTables ++ page.filter f, lastPage)

/-- The SDK pagination driver behind ListTablesPages (aws-sdk-go v1
Request.EachPage): the callback runs on each page with its lastPage
flag, and the driver fetches the next page only while the callback
returned true and a next page exists. -/
def listTablesPagesGo (patternRegex : Option (String → Bool))
    (matchedTables : List String) : List (List String) → RunOutcome (List String)
  | [] => RunOutcome.ok matchedTables
  | page :: rest =>
    match listTablesCallback patternRegex matchedTables page rest.isEmpty with
    | RunOutcome.panicked => RunOutcome.panicked
    | RunOutcome.ok (acc, cont) =>
      if cont && !rest.isEmpty then listTablesPagesGo patternRegex acc rest
      else RunOutcome.ok acc

/-- Embedding of getTablesRegex (main.go 137-167). The compile argument
stands for regexp.Compile; its error result is discarded by the source
(line 140), so a failed compile only leaves a nil regex. The first
component records whether the ListTablesPages call is issued: it is
issued unconditionally, nothing inspects the compile outcome first. The
pages argument is the store listing split into the pages the service
would serve. -/
def getTablesRegex (compile : String → Option (String → Bool))
    (pattern : String) (pages : List (List String)) :
    Bool × RunOutcome (List String) :=
  let patternRegex := compile pattern
  (true, listTablesPagesGo patternRegex [] pages)

/-- Zero padding of the %02d format verb for a nonnegative value. -/
def pad2 (n : Nat) : String :=
  if n < 10 then "0" ++ toString n else toString n

/-- The timestamp createBackup builds (main.go 177-180): year, month,
day, minute, second, formatted with one %d and four %02d verbs. The
hour component of the time is never read. -/
def backupTimestamp (now : GoTime) : String :=
  toString now.year ++ pad2 now.month ++ pad2 now.day ++
    pad2 now.minute ++ pad2 now.second

/-- The backup name createBackup builds (main.go 182). -/
def backupNameOf (table : String) (now : GoTime) : String :=
  table ++ "_" ++ backupTimestamp now

/-- The messages createBackup sends on the create channel
(main.go 192-214), as a function of the CreateBackup API outcome: the
success branch sends one message without an error, the failure branch
sends one message carrying the error. -/
def createBackupSends (table : String) (now : GoTime)
    (apiErr : Option GoError) : List CreateMessage :=
  let backupName := backupNameOf table now
  match apiErr with
  | none => [{ tableName := table, backupName := backupName, error := none }]
  | some e => [{ tableName := table, backupName := backupName, error := some e }]

/-- The messages deleteBackup sends on the delete channel
(main.go 275-284): on success the backup name read from the response,
on failure the error text; exactly one send on either branch. The API
outcome carries the response backup name on success. -/
def deleteBackupSends (apiResult : Except GoError String) : List String :=
  match apiResult with
  | Except.ok name => [name]
  | Except.error e => [e.msg]

/-- Number of seconds in one day, for the AddDate(0, 0, -d) model. -/
def secondsPerDay : Int := 86400

/-- The cutoff expireBackups computes (main.go 224):
time.Now().AddDate(0, 0, -backupExpireDays), on the seconds timeline. -/
def timeRangeUpperBound (nowSec : Int) (backupExpireDays : Int) : Int :=
  nowSec - backupExpireDays * secondsPerDay

/-- Model of the DynamoDB ListBackups call with a TableName and a
TimeRangeUpperBound (main.go 226-231), from the documented API
semantics: the upper bound is exclusive, only backups created strictly
before it are listed, restricted to the given table. The store argument
is the full set of backups the service holds. -/
def listBackupsStore (store : List BackupSummary) (table : String)
    (upper : Int) : List BackupSummary :=
  store.filter (fun b => b.tableName == table && decide (b.creationDateTime < upper))

/-- What one run of expireBackups does, recorded for the theorems:
which DeleteTask goroutines it spawns, which delete-channel messages its
barrier loop receives, and which messages it sends on the expire
channel. -/
structure ExpireRun where
  spawned : List BackupSummary
  received : List String
  sent : List ExpireMessage
  deriving DecidableEq, Repr

/-- Embedding of expireBackups after the ListBackups call returns
(main.go 236-255). deleteCount is the length of the returned
BackupSummaries, read before the error check (line 236; on error the
SDK still returns an allocated output with empty BackupSummaries). With
no error one deleteBackup goroutine is spawned per summary and the
barrier loop receives deleteCount messages from the delete channel; on
error the channel is closed and no goroutine is spawned, so the loop
receives deleteCount zero values (the empty string). The final send on
the expire channel is unconditional and never sets the Error field. -/
def expireBackupsRun (table : String) (summaries : List BackupSummary)
    (listErr : Option GoError)
    (deleteApi : BackupSummary → Except GoError String) : ExpireRun :=
  let deleteCount := summaries.length
  match listErr with
  | none =>
    let channelMsgs := (summaries.map (fun b => deleteBackupSends (deleteApi b))).flatten
    { spawned := summaries
      received := channelMsgs.take deleteCount
      sent := [{ tableName := table, count := deleteCount, error := none }] }
  | some _ =>
    { spawned := []
      received := List.replicate deleteCount ""
      sent := [{ tableName := table, count := deleteCount, error := none }] }

/-- expireBackups end to end against the store model: compute the
cutoff (main.go 224), list the strictly-older backups of the table, run
the delete fan-out and the barrier. -/
def expireBackupsFromStore (table : String) (nowSec : Int)
    (backupExpireDays : Int) (store : List BackupSummary)
    (deleteApi : BackupSummary → Except GoError String) : ExpireRun :=
  expireBackupsRun table
    (listBackupsStore store table (timeRangeUpperBound nowSec backupExpireDays))
    none deleteApi

/-- Channel events of one expireBackups run, in program order. -/
inductive ExpireEvent where
  | recvDelete : String → ExpireEvent
  | sendExpire : ExpireMessage → ExpireEvent
  deriving DecidableEq, Repr

/-- Order of channel operations in expireBackups: the barrier loop
(main.go 247-249) finishes all its receives before the expire-channel
send (main.go 251) happens. -/
def expireTrace (r : ExpireRun) : List ExpireEvent :=
  r.received.map ExpireEvent.recvDelete ++ r.sent.map ExpireEvent.sendExpire

/-- Embedding of the fan-out and the two drain loops of main
(main.go 103-130): one createBackup and one expireBackups goroutine per
matched table, then a loop of tableCount receives from the create
channel and a loop of tableCount receives from the expire channel. The
channel contents are the concatenation of the per-task sends; the
per-table API outcomes are parameters. -/
def mainRun (matchedTables : List String) (nowOf : String → GoTime)
    (createApi : String → Option GoError)
    (listOf : String → List BackupSummary × Option GoError)
    (deleteApi : BackupSummary → Except GoError String) :
    List CreateMessage × List ExpireMessage :=
  let tableCount := matchedTables.length
  let createChannel :=
    (matchedTables.map (fun t => createBackupSends t (nowOf t) (createApi t))).flatten
  let expireChannel :=
    (matchedTables.map (fun t =>
      (expireBackupsRun t (listOf t).1 (listOf t).2 deleteApi).sent)).flatten
  (createChannel.take tableCount, expireChannel.take tableCount)

theorem createBackupSends_length (table : String) (now : GoTime)
    (apiErr : Option GoError) : (createBackupSends table now apiErr).length = 1 := by
  cases apiErr <;> rfl

theorem deleteBackupSends_length (apiResult : Except GoError String) :
    (deleteBackupSends apiResult).length = 1 := by
  cases apiResult <;> rfl

theorem expireBackupsRun_sent_length (table : String)
    (summaries : List BackupSummary) (listErr : Option GoError)
    (deleteApi : BackupSummary → Except GoError String) :
    (expireBackupsRun table summaries listErr deleteApi).sent.length = 1 := by
  cases listErr <;> rfl

theorem join_length_of_singleton_sends {α β : Type} (f : α → List β)
    (l : List α) (h : ∀ x, (f x).length = 1) :
    ((l.map f).flatten).length = l.length := by
  induction l with
  | nil => rfl
  | cons a t ih =>
    simp only [List.map_cons, List.flatten_cons, List.length_append, List.length_cons, h a, ih]
    omega

/-- C1: over a matched-table sequence of length N the main loop receives
exactly N CreateMessages and exactly N ExpireMessages before returning;
each createBackup invocation sends exactly one CreateMessage and each
expireBackups invocation sends exactly one ExpireMessage on every
execution path; for N = 0 the run completes immediately with no
results. -/
theorem c1_orchestrator_exact_counts (matchedTables : List String)
    (nowOf : String → GoTime) (createApi : String → Option GoError)
    (listOf : String → List BackupSummary × Option GoError)
    (deleteApi : BackupSummary → Except GoError String) :
    (mainRun matchedTables nowOf createApi listOf deleteApi).1.length = matchedTables.length ∧
    (mainRun matchedTables nowOf createApi listOf deleteApi).2.length = matchedTables.length ∧
    (∀ t now e, (createBackupSends t now e).length = 1) ∧
    (∀ t s le, (expireBackupsRun t s le deleteApi).sent.length = 1) ∧
    mainRun [] nowOf createApi listOf deleteApi = ([], []) := by
  have hc : ((matchedTables.map (fun t => createBackupSends t (nowOf t) (createApi t))).flatten).length
      = matchedTables.length :=
    join_length_of_singleton_sends _ _ (fun t => createBackupSends_length t (nowOf t) (createApi t))
  have he : ((matchedTables.map (fun t =>
        (expireBackupsRun t (listOf t).1 (listOf t).2 deleteApi).sent)).flatten).length
      = matchedTables.length :=
    join_length_of_singleton_sends _ _
      (fun t => expireBackupsRun_sent_length t (listOf t).1 (listOf t).2 deleteApi)
  refine ⟨?_, ?_, createBackupSends_length,
    (fun t s le => expireBackupsRun_sent_length t s le deleteApi), rfl⟩
  · show ((matchedTables.map (fun t => createBackupSends t (nowOf t) (createApi t))).flatten.take
        matchedTables.length).length = matchedTables.length
    rw [List.length_take, hc, Nat.min_self]
  · show ((matchedTables.map (fun t =>
        (expireBackupsRun t (listOf t).1 (listOf t).2 deleteApi).sent)).flatten.take
        matchedTables.length).length = matchedTables.length
    rw [List.length_take, he, Nat.min_self]

/-- C2: the page callback returns lastPage as its continue flag, so the
SDK stops fetching after the first page of a multi-page listing; the
matching name on the second page never reaches the pattern test.
Evaluated at a two-page listing: the result is only the first page
match, not the full consumption the claim requires. -/
theorem c2_pagination_stops_after_first_page :
    getTablesRegex regexpCompile "^orders_" [["orders_1"], ["orders_2"]] =
      (true, RunOutcome.ok ["orders_1"]) ∧
    RunOutcome.ok ["orders_1"] ≠
      (RunOutcome.ok ["orders_1", "orders_2"] : RunOutcome (List String)) := by
  exact ⟨by decide, by decide⟩

/-- C3: the compile error of a malformed pattern is discarded, so
getTablesRegex does not fail before the listing: the ListTablesPages
call is still issued, and the first name tested dereferences the nil
regex and panics instead of surfacing a distinct error. -/
theorem c3_compile_error_discarded_listing_still_called :
    regexpCompile "(" = none ∧
    (getTablesRegex regexpCompile "(" [["orders_1"]]).1 = true ∧
    (getTablesRegex regexpCompile "(" [["orders_1"]]).2 = RunOutcome.panicked := by
  exact ⟨rfl, rfl, rfl⟩

/-- C4: the ExpireMessage Count equals the number of delete attempts,
independent of the per-delete outcomes (the deleteApi parameter), every
discovered backup is attempted, and at 3 stale backups with exactly one
failing delete the emitted Count is 3. -/
theorem c4_expire_count_counts_all_attempts (table : String)
    (summaries : List BackupSummary)
    (deleteApi : BackupSummary → Except GoError String) :
    (expireBackupsRun table summaries none deleteApi).sent =
      [{ tableName := table, count := summaries.length, error := none }] ∧
    (expireBackupsRun table summaries none deleteApi).spawned = summaries ∧
    (expireBackupsRun "t"
      [⟨"t", "b1", "a1", 0⟩, ⟨"t", "b2", "a2", 1⟩, ⟨"t", "b3", "a3", 2⟩] none
      (fun b => if b.backupName = "b2" then Except.error ⟨"AccessDenied"⟩
        else Except.ok b.backupName)).sent = [⟨"t", 3, none⟩] := by
  exact ⟨rfl, rfl, by decide⟩

/-- C5 counterexample: when the ListBackups call errors, the
ExpireMessage actually emitted carries no error at all — its Error field
is none, not the listing error the claim requires. -/
theorem c5_error_not_carried_counterexample :
    ((expireBackupsRun "t" [] (some ⟨"throttled"⟩)
        (fun b => Except.ok b.backupName)).sent.map ExpireMessage.error) = [none] ∧
    ([none] : List (Option GoError)) ≠ [some ⟨"throttled"⟩] := by
  exact ⟨rfl, by decide⟩

/-- C5 amended: when the ListBackups call errors (the SDK then returns
an allocated output with no summaries), expireBackups spawns no
DeleteTask, its barrier loop receives nothing, and it emits exactly one
message of the form table, count 0, no error: the listing error is
logged but never carried in the message. -/
theorem c5_listing_error_zero_count_no_error (table : String) (e : GoError)
    (deleteApi : BackupSummary → Except GoError String) :
    expireBackupsRun table [] (some e) deleteApi =
      { spawned := [], received := [],
        sent := [{ tableName := table, count := 0, error := none }] } := by
  exact rfl

/-- C6: every spawned DeleteTask reports exactly one message, the
barrier loop receives exactly the messages of the spawned tasks (sized
to the discovered count, no over- or under-counting), and in the event
order all receives precede the ExpireMessage send. -/
theorem c6_delete_barrier_exact (table : String)
    (summaries : List BackupSummary)
    (deleteApi : BackupSummary → Except GoError String) :
    (expireBackupsRun table summaries none deleteApi).spawned = summaries ∧
    (∀ b, (deleteBackupSends (deleteApi b)).length = 1) ∧
    (expireBackupsRun table summaries none deleteApi).received =
      (summaries.map (fun b => deleteBackupSends (deleteApi b))).flatten ∧
    (expireBackupsRun table summaries none deleteApi).received.length = summaries.length ∧
    expireTrace (expireBackupsRun table summaries none deleteApi) =
      (expireBackupsRun table summaries none deleteApi).received.map ExpireEvent.recvDelete ++
        [ExpireEvent.sendExpire { tableName := table, count := summaries.length, error := none }] := by
  have hlen : ((summaries.map (fun b => deleteBackupSends (deleteApi b))).flatten).length
      = summaries.length :=
    join_length_of_singleton_sends _ _ (fun b => deleteBackupSends_length (deleteApi b))
  have hrecv : (expireBackupsRun table summaries none deleteApi).received =
      (summaries.map (fun b => deleteBackupSends (deleteApi b))).flatten := by
    show ((summaries.map (fun b => deleteBackupSends (deleteApi b))).flatten).take
        summaries.length = _
    rw [← hlen, List.take_length]
  refine ⟨rfl, fun b => deleteBackupSends_length (deleteApi b), hrecv, ?_, rfl⟩
  rw [hrecv, hlen]

/-- C7: on a listing the code consumes in one page, the matched result
is exactly the subsequence of names accepted by the compiled pattern, in
store order; on the concrete spec example with pattern anchored at
orders the store order logs, orders_2, orders_1 yields orders_2,
orders_1. -/
theorem c7_match_preserves_store_order (f : String → Bool)
    (pattern : String) (names : List String) :
    getTablesRegex (fun _ => some f) pattern [names] =
      (true, RunOutcome.ok (names.filter f)) ∧
    getTablesRegex regexpCompile "^orders_" [["logs", "orders_2", "orders_1"]] =
      (true, RunOutcome.ok ["orders_2", "orders_1"]) := by
  exact ⟨rfl, by decide⟩

/-- C8: the backup name is the table, an underscore, and a timestamp
encoding year, month, day, minute and second; the hour is never read,
so two times agreeing on those five fields give the same name whatever
their hours. -/
theorem c8_backup_name_no_hour (table : String) (t1 t2 : GoTime)
    (hy : t1.year = t2.year) (hmo : t1.month = t2.month)
    (hd : t1.day = t2.day) (hmi : t1.minute = t2.minute)
    (hs : t1.second = t2.second) :
    backupNameOf table t1 = table ++ "_" ++ backupTimestamp t1 ∧
    backupNameOf table t1 = backupNameOf table t2 := by
  refine ⟨rfl, ?_⟩
  unfold backupNameOf backupTimestamp
  rw [hy, hmo, hd, hmi, hs]

/-- C8 witness: hour 3 and hour 17 of 2024-05-06, both at minute 7 and
second 9, give the identical name orders_202405060709. -/
theorem c8_backup_name_no_hour_witness :
    backupNameOf "orders" ⟨2024, 5, 6, 3, 7, 9⟩ = "orders_202405060709" ∧
    (⟨2024, 5, 6, 3, 7, 9⟩ : GoTime).hour ≠ (⟨2024, 5, 6, 17, 7, 9⟩ : GoTime).hour ∧
    backupNameOf "orders" ⟨2024, 5, 6, 3, 7, 9⟩ =
      backupNameOf "orders" ⟨2024, 5, 6, 17, 7, 9⟩ := by
  refine ⟨by decide, by decide, ?_⟩
  exact (c8_backup_name_no_hour "orders" ⟨2024, 5, 6, 3, 7, 9⟩
    ⟨2024, 5, 6, 17, 7, 9⟩ rfl rfl rfl rfl rfl).2

/-- C9: the cutoff is the current time minus the retention threshold in
days, a backup is selected for deletion exactly when it belongs to the
table and its creation time is strictly earlier than that cutoff, and
on the boundary instance with cutoff 86400 the backup created exactly
at 86400 is retained while the one created at 86399 is deleted. -/
theorem c9_cutoff_strictly_earlier (table : String) (nowSec days : Int)
    (store : List BackupSummary)
    (deleteApi : BackupSummary → Except GoError String) (b : BackupSummary) :
    timeRangeUpperBound nowSec days = nowSec - days * 86400 ∧
    (b ∈ (expireBackupsFromStore table nowSec days store deleteApi).spawned ↔
      b ∈ store ∧ b.tableName = table ∧
        b.creationDateTime < nowSec - days * 86400) ∧
    (expireBackupsFromStore "t" 172800 1
      [⟨"t", "bEq", "a1", 86400⟩, ⟨"t", "bOld", "a2", 86399⟩]
      (fun x => Except.ok x.backupName)).spawned = [⟨"t", "bOld", "a2", 86399⟩] := by
  refine ⟨rfl, ?_, by decide⟩
  show b ∈ listBackupsStore store table (timeRangeUpperBound nowSec days) ↔ _
  simp [listBackupsStore, List.mem_filter, timeRangeUpperBound, secondsPerDay, and_assoc]

/-- C10 counterexample: with the empty pattern and a store listing of
two pages, the name on the second page is a table name of the store yet
is absent from the matched result, because pagination stops after the
first page. -/
theorem c10_second_page_dropped_counterexample :
    (getTablesRegex regexpCompile "" [["a"], ["b"]]).2 = RunOutcome.ok ["a"] ∧
    "b" ∉ (["a"] : List String) := by
  exact ⟨rfl, by decide⟩

/-- C10 amended: the empty pattern compiles successfully into a regex
matching every string, so every table name the code actually tests is
included: the whole first page of the listing is returned unfiltered
(and an empty listing gives an empty result); an unset pattern selects
every tested table rather than none, though names on pages after the
first are never reached. -/
theorem c10_empty_pattern_selects_all_consumed (firstPage : List String)
    (rest : List (List String)) :
    regexpCompile "" = some (fun _ => true) ∧
    getTablesRegex regexpCompile "" (firstPage :: rest) =
      (true, RunOutcome.ok firstPage) ∧
    getTablesRegex regexpCompile "" [] = (true, RunOutcome.ok []) := by
  refine ⟨rfl, ?_, rfl⟩
  have h : getTablesRegex regexpCompile "" (firstPage :: rest) =
      (true, RunOutcome.ok (firstPage.filter (fun _ => true))) := by
    cases rest <;> rfl
  rw [h, List.filter_true]
